import Mathlib

/-!
Verification of the nestjs-core contract layer.

The repository under verification consists of interface contracts
(IBaseRepository, IBaseService, SearchRequest/FilterOperator, IUnitOfWork)
and a thin delegating class BaseService.  Promises that may reject are
embedded as Except RepoError; the opaque TypeScript generics T, CreateDTO,
UpdateDTO and Transaction stay type parameters.  Repository method
implementations are external to the repository; where a claim is about the
prescribed contract of such a method, a model of a compliant adapter is
written from the specification and marked as such.
-/

namespace NestjsCore

/-- Identifier type: the TypeScript union string | number used for entity ids. -/
inductive EntityId where
  | str (s : String)
  | num (n : Int)
deriving DecidableEq, Repr

/-- FilterOperator enumeration from search-request.interface.ts. -/
inductive FilterOperator where
  | contains
  | equals
  | lessThan
  | greaterThan
  | startsWith
  | endsWith
  | inList
  | between
deriving DecidableEq, Repr

/-- Concrete stand-in for the TypeScript any type used in filter values and
entity fields: enough structure to build concrete witnesses. -/
inductive Value where
  | vNull
  | vBool (b : Bool)
  | vInt (n : Int)
  | vStr (s : String)
deriving DecidableEq, Repr

/-- One entry of the filters map of a SearchRequest:
a value together with a FilterOperator. -/
structure FilterCondition where
  value : Value
  operator : FilterOperator
deriving DecidableEq, Repr

/-- Sort direction of a SearchRequest. -/
inductive SortOrder where
  | asc
  | desc
deriving DecidableEq, Repr

/-- SearchRequest from search-request.interface.ts.  Every field is optional
in the TypeScript interface; the filters record becomes an association list. -/
structure SearchRequest where
  page : Option Nat
  limit : Option Nat
  sortBy : Option String
  sortOrder : Option SortOrder
  search : Option String
  filters : Option (List (String × FilterCondition))
deriving DecidableEq, Repr

/-- A Record of field name to value, the TypeScript filter-map argument type. -/
abbrev Filters := List (String × Value)

/-- OperationOptions from the options-bag repository interface: all six
recognized option fields, each optional. -/
structure OperationOptions (Transaction : Type) where
  populate : Option Bool
  populateFields : Option (List String)
  raiseException : Option Bool
  transaction : Option Transaction
  dontSelectFields : Option (List String)
  selectFields : Option (List String)
deriving DecidableEq, Repr

/-- Error kinds surfaced by the contract: NotFoundError, ValidationError,
TransactionStateError, and opaque adapter-defined errors. -/
inductive RepoError where
  | notFoundError
  | validationError
  | transactionStateError
  | adapterError (msg : String)
deriving DecidableEq, Repr

/-- The pagination result shape returned by findByPagination. -/
structure PaginationResult (T : Type) where
  data : List T
  page : Nat
  limit : Nat
  totalPages : Nat
  total : Nat
deriving DecidableEq, Repr

/-- The message-bearing result of delete operations. -/
structure DeleteMessage where
  message : String
deriving DecidableEq, Repr

/-- IBaseRepository, options-bag variant: each method takes an optional
OperationOptions bag, except findByPagination which takes only the
SearchRequest.  An asynchronous result that may reject is an Except value. -/
structure IBaseRepository (T CreateDTO UpdateDTO Transaction : Type) where
  create : CreateDTO → Option (OperationOptions Transaction) → Except RepoError T
  findAll : Option (OperationOptions Transaction) → Except RepoError (List T)
  findMany : Filters → Option (OperationOptions Transaction) → Except RepoError (List T)
  findByPagination : SearchRequest → Except RepoError (PaginationResult T)
  findById : EntityId → Option (OperationOptions Transaction) → Except RepoError (Option T)
  findOne : Filters → Option (OperationOptions Transaction) → Except RepoError (Option T)
  updateById : EntityId → UpdateDTO → Option (OperationOptions Transaction) → Except RepoError T
  deleteById : EntityId → Option (OperationOptions Transaction) → Except RepoError DeleteMessage
  deleteMany : List EntityId → Option (OperationOptions Transaction) → Except RepoError DeleteMessage

/-- BaseService, options-bag variant: holds exactly one repository reference,
captured at construction. -/
structure BaseService (T CreateDTO UpdateDTO Transaction : Type) where
  repository : IBaseRepository T CreateDTO UpdateDTO Transaction

variable {T C U Tx : Type}

/-- Service create: returns this.repository.create(createDto, options). -/
def BaseService.create (s : BaseService T C U Tx) (createDto : C)
    (options : Option (OperationOptions Tx)) : Except RepoError T :=
  s.repository.create createDto options

/-- Service findAll: returns this.repository.findAll(options). -/
def BaseService.findAll (s : BaseService T C U Tx)
    (options : Option (OperationOptions Tx)) : Except RepoError (List T) :=
  s.repository.findAll options

/-- Service findMany: returns this.repository.findMany(filters, options). -/
def BaseService.findMany (s : BaseService T C U Tx) (filters : Filters)
    (options : Option (OperationOptions Tx)) : Except RepoError (List T) :=
  s.repository.findMany filters options

/-- Service findOne: returns this.repository.findById(id, options). -/
def BaseService.findOne (s : BaseService T C U Tx) (id : EntityId)
    (options : Option (OperationOptions Tx)) : Except RepoError (Option T) :=
  s.repository.findById id options

/-- Service findOneBy: returns this.repository.findOne(filters, options). -/
def BaseService.findOneBy (s : BaseService T C U Tx) (filters : Filters)
    (options : Option (OperationOptions Tx)) : Except RepoError (Option T) :=
  s.repository.findOne filters options

/-- Service update: returns this.repository.updateById(id, updateDto, options). -/
def BaseService.update (s : BaseService T C U Tx) (id : EntityId) (updateDto : U)
    (options : Option (OperationOptions Tx)) : Except RepoError T :=
  s.repository.updateById id updateDto options

/-- Service delete: returns this.repository.deleteById(id, options). -/
def BaseService.delete (s : BaseService T C U Tx) (id : EntityId)
    (options : Option (OperationOptions Tx)) : Except RepoError DeleteMessage :=
  s.repository.deleteById id options

/-- Service deleteMany: returns this.repository.deleteMany(ids, options). -/
def BaseService.deleteMany (s : BaseService T C U Tx) (ids : List EntityId)
    (options : Option (OperationOptions Tx)) : Except RepoError DeleteMessage :=
  s.repository.deleteMany ids options

/-- Service findByPagination: the body is
return this.repository.findByPagination(searchRequest) — the options
parameter is accepted but does not occur in the call. -/
def BaseService.findByPagination (s : BaseService T C U Tx)
    (searchRequest : SearchRequest) (options : Option (OperationOptions Tx)) :
    Except RepoError (PaginationResult T) :=
  s.repository.findByPagination searchRequest

/-- IBaseRepository, positional variant, from base-repository.interface.ts:
trailing optional populate / raiseException booleans instead of a bag. -/
structure Positional.IBaseRepository (T CreateDTO UpdateDTO : Type) where
  create : CreateDTO → Option Bool → Except RepoError T
  findAll : Option Filters → Option Bool → Except RepoError (List T)
  findOne : EntityId → Option Bool → Option Bool → Except RepoError (Option T)
  findOneBy : Filters → Option Bool → Option Bool → Except RepoError (Option T)
  update : EntityId → UpdateDTO → Option Bool → Except RepoError T
  delete : EntityId → Except RepoError DeleteMessage
  deleteMany : List EntityId → Except RepoError DeleteMessage
  findByPagination : SearchRequest → Except RepoError (PaginationResult T)

/-- BaseService, positional variant, from the second class in base.service.ts. -/
structure Positional.BaseService (T CreateDTO UpdateDTO : Type) where
  repository : Positional.IBaseRepository T CreateDTO UpdateDTO

/-- Positional service create: returns this.repository.create(createDto, populate). -/
def Positional.BaseService.create (s : Positional.BaseService T C U) (createDto : C)
    (populate : Option Bool) : Except RepoError T :=
  s.repository.create createDto populate

/-- Positional service findAll: returns this.repository.findAll(filters, populate). -/
def Positional.BaseService.findAll (s : Positional.BaseService T C U)
    (filters : Option Filters) (populate : Option Bool) : Except RepoError (List T) :=
  s.repository.findAll filters populate

/-- Positional service findOne:
returns this.repository.findOne(id, populate, raiseException). -/
def Positional.BaseService.findOne (s : Positional.BaseService T C U) (id : EntityId)
    (populate : Option Bool) (raiseException : Option Bool) :
    Except RepoError (Option T) :=
  s.repository.findOne id populate raiseException

/-- Positional service findOneBy:
returns this.repository.findOneBy(filters, populate, raiseException). -/
def Positional.BaseService.findOneBy (s : Positional.BaseService T C U)
    (filters : Filters) (populate : Option Bool) (raiseException : Option Bool) :
    Except RepoError (Option T) :=
  s.repository.findOneBy filters populate raiseException

/-- Positional service update:
returns this.repository.update(id, updateDto, populate). -/
def Positional.BaseService.update (s : Positional.BaseService T C U) (id : EntityId)
    (updateDto : U) (populate : Option Bool) : Except RepoError T :=
  s.repository.update id updateDto populate

/-- Positional service delete: returns this.repository.delete(id). -/
def Positional.BaseService.delete (s : Positional.BaseService T C U) (id : EntityId) :
    Except RepoError DeleteMessage :=
  s.repository.delete id

/-- Positional service deleteMany: returns this.repository.deleteMany(ids). -/
def Positional.BaseService.deleteMany (s : Positional.BaseService T C U)
    (ids : List EntityId) : Except RepoError DeleteMessage :=
  s.repository.deleteMany ids

/-- Positional service findByPagination:
returns this.repository.findByPagination(searchRequest). -/
def Positional.BaseService.findByPagination (s : Positional.BaseService T C U)
    (searchRequest : SearchRequest) : Except RepoError (PaginationResult T) :=
  s.repository.findByPagination searchRequest

/-- A repository instance whose findByPagination result records the entire
argument list it receives, so that what the service forwards is observable
in the result. -/
def echoRepo : IBaseRepository SearchRequest Unit Unit Unit where
  create := fun _ _ => .error .validationError
  findAll := fun _ => .ok []
  findMany := fun _ _ => .ok []
  findByPagination := fun s => .ok ⟨[s], 0, 0, 0, 0⟩
  findById := fun _ _ => .ok none
  findOne := fun _ _ => .ok none
  updateById := fun _ _ _ => .error .notFoundError
  deleteById := fun _ _ => .ok ⟨""⟩
  deleteMany := fun _ _ => .ok ⟨""⟩

/-- The SearchRequest with every optional field absent. -/
def emptyRequest : SearchRequest := ⟨none, none, none, none, none, none⟩

/-- An options bag with every field set, distinguishable from the absent bag. -/
def fullBag : OperationOptions Unit :=
  ⟨some true, some ["a"], some true, some (), some ["b"], some ["c"]⟩

/-- C1, counterexample: the options parameter of findByPagination is not
forwarded to the repository.  Against a repository whose findByPagination
result records everything it receives, a call with a fully populated options
bag and a call with no options at all produce identical results, although the
two options arguments differ — so the repository receives the searchRequest
only, never the options bag. -/
theorem claim1_options_not_forwarded :
    (BaseService.mk echoRepo).findByPagination emptyRequest (some fullBag) =
      (BaseService.mk echoRepo).findByPagination emptyRequest none ∧
    (some fullBag : Option (OperationOptions Unit)) ≠ none :=
  ⟨rfl, by decide⟩

/-- C1 (amended): every public method of the options-bag BaseService returns
exactly the result of the matching repository method applied to the same
arguments in the same order, with the options bag forwarded unchanged and any
repository error propagated unchanged (the results are literally equal) — for
every method except findByPagination, which forwards only the searchRequest:
its options parameter is accepted but dropped, because the repository method
findByPagination takes no options argument. -/
theorem claim1_pure_delegation (R : IBaseRepository T C U Tx) (dto : C)
    (filters : Filters) (id : EntityId) (u : U) (ids : List EntityId)
    (req : SearchRequest) (o : Option (OperationOptions Tx)) :
    (BaseService.mk R).create dto o = R.create dto o ∧
    (BaseService.mk R).findAll o = R.findAll o ∧
    (BaseService.mk R).findMany filters o = R.findMany filters o ∧
    (BaseService.mk R).findOne id o = R.findById id o ∧
    (BaseService.mk R).findOneBy filters o = R.findOne filters o ∧
    (BaseService.mk R).update id u o = R.updateById id u o ∧
    (BaseService.mk R).delete id o = R.deleteById id o ∧
    (BaseService.mk R).deleteMany ids o = R.deleteMany ids o ∧
    (BaseService.mk R).findByPagination req o = R.findByPagination req :=
  ⟨rfl, rfl, rfl, rfl, rfl, rfl, rfl, rfl, rfl⟩

/-- A simple concrete repository over Nat entities, used in witnesses. -/
def natRepo : IBaseRepository Nat Nat Nat Unit where
  create := fun n _ => .ok n
  findAll := fun _ => .ok []
  findMany := fun _ _ => .ok []
  findByPagination := fun _ => .ok ⟨[], 1, 10, 0, 0⟩
  findById := fun _ _ => .ok none
  findOne := fun _ _ => .ok none
  updateById := fun _ n _ => .ok n
  deleteById := fun _ _ => .ok ⟨"deleted"⟩
  deleteMany := fun _ _ => .ok ⟨"deleted"⟩

/-- C10: every service method is deterministic in its arguments and the
injected repository: the service holds no state besides the repository
reference fixed at construction, so two services with equal repositories
agree on every method at every argument list. -/
theorem claim10_deterministic (s1 s2 : BaseService T C U Tx)
    (h : s1.repository = s2.repository) (dto : C) (filters : Filters)
    (id : EntityId) (u : U) (ids : List EntityId) (req : SearchRequest)
    (o : Option (OperationOptions Tx)) :
    s1.create dto o = s2.create dto o ∧
    s1.findAll o = s2.findAll o ∧
    s1.findMany filters o = s2.findMany filters o ∧
    s1.findOne id o = s2.findOne id o ∧
    s1.findOneBy filters o = s2.findOneBy filters o ∧
    s1.update id u o = s2.update id u o ∧
    s1.delete id o = s2.delete id o ∧
    s1.deleteMany ids o = s2.deleteMany ids o ∧
    s1.findByPagination req o = s2.findByPagination req o := by
  cases s1
  cases s2
  cases h
  exact ⟨rfl, rfl, rfl, rfl, rfl, rfl, rfl, rfl, rfl⟩

/-- C10, witness: the determinism theorem applied to the concrete Nat
repository service and concrete arguments. -/
theorem claim10_deterministic_witness :
    (BaseService.mk natRepo).create 3 none = (BaseService.mk natRepo).create 3 none ∧
    (BaseService.mk natRepo).findAll none = (BaseService.mk natRepo).findAll none ∧
    (BaseService.mk natRepo).findMany [] none = (BaseService.mk natRepo).findMany [] none ∧
    (BaseService.mk natRepo).findOne (.num 1) none = (BaseService.mk natRepo).findOne (.num 1) none ∧
    (BaseService.mk natRepo).findOneBy [] none = (BaseService.mk natRepo).findOneBy [] none ∧
    (BaseService.mk natRepo).update (.num 1) 4 none = (BaseService.mk natRepo).update (.num 1) 4 none ∧
    (BaseService.mk natRepo).delete (.num 1) none = (BaseService.mk natRepo).delete (.num 1) none ∧
    (BaseService.mk natRepo).deleteMany [] none = (BaseService.mk natRepo).deleteMany [] none ∧
    (BaseService.mk natRepo).findByPagination emptyRequest none =
      (BaseService.mk natRepo).findByPagination emptyRequest none :=
  claim10_deterministic (BaseService.mk natRepo) (BaseService.mk natRepo) rfl
    3 [] (.num 1) 4 [] emptyRequest none

/-- The options bag holding only the populate and raiseException fields,
following the specification sentence that the positional style is reachable by
constructing an options bag with only those fields set. -/
def optionsBagOf (populate raiseException : Option Bool) : OperationOptions Tx :=
  ⟨populate, none, raiseException, none, none, none⟩

/-- A positional repository P and an options-bag repository R describe the
same repository behavior when each positional operation agrees with the
matching bag operation invoked with a bag holding only the populate and
raiseException values; a positional findAll with a filter map corresponds to
the bag findMany, and without one to the bag findAll. -/
def Corresponds (P : Positional.IBaseRepository T C U)
    (R : IBaseRepository T C U Tx) : Prop :=
  (∀ dto pop, P.create dto pop = R.create dto (some (optionsBagOf pop none))) ∧
  (∀ pop, P.findAll none pop = R.findAll (some (optionsBagOf pop none))) ∧
  (∀ f pop, P.findAll (some f) pop = R.findMany f (some (optionsBagOf pop none))) ∧
  (∀ id pop ra, P.findOne id pop ra = R.findById id (some (optionsBagOf pop ra))) ∧
  (∀ f pop ra, P.findOneBy f pop ra = R.findOne f (some (optionsBagOf pop ra))) ∧
  (∀ id u pop, P.update id u pop = R.updateById id u (some (optionsBagOf pop none))) ∧
  (∀ id, P.delete id = R.deleteById id (some (optionsBagOf none none))) ∧
  (∀ ids, P.deleteMany ids = R.deleteMany ids (some (optionsBagOf none none))) ∧
  (∀ req, P.findByPagination req = R.findByPagination req)

/-- C6: the positional service style is a subset of the options-bag style:
whenever the two repositories describe the same behavior, every positional
service call equals the options-bag service call built with a bag holding only
the populate and raiseException fields. -/
theorem claim6_positional_subset (P : Positional.IBaseRepository T C U)
    (R : IBaseRepository T C U Tx) (h : Corresponds P R) (dto : C) (f : Filters)
    (id : EntityId) (u : U) (ids : List EntityId) (req : SearchRequest)
    (pop ra : Option Bool) :
    (Positional.BaseService.mk P).create dto pop =
      (BaseService.mk R).create dto (some (optionsBagOf pop none)) ∧
    (Positional.BaseService.mk P).findAll none pop =
      (BaseService.mk R).findAll (some (optionsBagOf pop none)) ∧
    (Positional.BaseService.mk P).findAll (some f) pop =
      (BaseService.mk R).findMany f (some (optionsBagOf pop none)) ∧
    (Positional.BaseService.mk P).findOne id pop ra =
      (BaseService.mk R).findOne id (some (optionsBagOf pop ra)) ∧
    (Positional.BaseService.mk P).findOneBy f pop ra =
      (BaseService.mk R).findOneBy f (some (optionsBagOf pop ra)) ∧
    (Positional.BaseService.mk P).update id u pop =
      (BaseService.mk R).update id u (some (optionsBagOf pop none)) ∧
    (Positional.BaseService.mk P).delete id =
      (BaseService.mk R).delete id (some (optionsBagOf none none)) ∧
    (Positional.BaseService.mk P).deleteMany ids =
      (BaseService.mk R).deleteMany ids (some (optionsBagOf none none)) ∧
    (Positional.BaseService.mk P).findByPagination req =
      (BaseService.mk R).findByPagination req (some (optionsBagOf none none)) := by
  obtain ⟨h1, h2, h3, h4, h5, h6, h7, h8, h9⟩ := h
  exact ⟨h1 dto pop, h2 pop, h3 f pop, h4 id pop ra, h5 f pop ra, h6 id u pop,
    h7 id, h8 ids, h9 req⟩

/-- The positional repository induced by restricting an options-bag repository
to bags holding only populate and raiseException. -/
def positionalViewOf (R : IBaseRepository T C U Tx) :
    Positional.IBaseRepository T C U where
  create := fun dto pop => R.create dto (some (optionsBagOf pop none))
  findAll := fun f pop =>
    match f with
    | none => R.findAll (some (optionsBagOf pop none))
    | some fs => R.findMany fs (some (optionsBagOf pop none))
  findOne := fun id pop ra => R.findById id (some (optionsBagOf pop ra))
  findOneBy := fun f pop ra => R.findOne f (some (optionsBagOf pop ra))
  update := fun id u pop => R.updateById id u (some (optionsBagOf pop none))
  delete := fun id => R.deleteById id (some (optionsBagOf none none))
  deleteMany := fun ids => R.deleteMany ids (some (optionsBagOf none none))
  findByPagination := fun req => R.findByPagination req

/-- The induced positional view of a bag repository corresponds to it. -/
theorem positionalViewOf_corresponds (R : IBaseRepository T C U Tx) :
    Corresponds (positionalViewOf R) R :=
  ⟨fun _ _ => rfl, fun _ => rfl, fun _ _ => rfl, fun _ _ _ => rfl,
   fun _ _ _ => rfl, fun _ _ _ => rfl, fun _ => rfl, fun _ => rfl, fun _ => rfl⟩

/-- C6, witness: the subset theorem applied to the concrete Nat repository,
its induced positional view, and concrete arguments. -/
theorem claim6_positional_subset_witness :
    (Positional.BaseService.mk (positionalViewOf natRepo)).create 3 (some true) =
      (BaseService.mk natRepo).create 3 (some (optionsBagOf (some true) none)) ∧
    (Positional.BaseService.mk (positionalViewOf natRepo)).findAll none (some true) =
      (BaseService.mk natRepo).findAll (some (optionsBagOf (some true) none)) ∧
    (Positional.BaseService.mk (positionalViewOf natRepo)).findAll (some []) (some true) =
      (BaseService.mk natRepo).findMany [] (some (optionsBagOf (some true) none)) ∧
    (Positional.BaseService.mk (positionalViewOf natRepo)).findOne (.num 1) (some true) (some false) =
      (BaseService.mk natRepo).findOne (.num 1) (some (optionsBagOf (some true) (some false))) ∧
    (Positional.BaseService.mk (positionalViewOf natRepo)).findOneBy [] (some true) (some false) =
      (BaseService.mk natRepo).findOneBy [] (some (optionsBagOf (some true) (some false))) ∧
    (Positional.BaseService.mk (positionalViewOf natRepo)).update (.num 1) 4 (some true) =
      (BaseService.mk natRepo).update (.num 1) 4 (some (optionsBagOf (some true) none)) ∧
    (Positional.BaseService.mk (positionalViewOf natRepo)).delete (.num 1) =
      (BaseService.mk natRepo).delete (.num 1) (some (optionsBagOf none none)) ∧
    (Positional.BaseService.mk (positionalViewOf natRepo)).deleteMany [] =
      (BaseService.mk natRepo).deleteMany [] (some (optionsBagOf none none)) ∧
    (Positional.BaseService.mk (positionalViewOf natRepo)).findByPagination emptyRequest =
      (BaseService.mk natRepo).findByPagination emptyRequest (some (optionsBagOf none none)) :=
  claim6_positional_subset (positionalViewOf natRepo) natRepo
    (positionalViewOf_corresponds natRepo) 3 [] (.num 1) 4 [] emptyRequest
    (some true) (some false)

/-- Observable transaction events of a unit of work, in call order. -/
inductive UowEvent where
  | started
  | committed
  | rolledBack
deriving DecidableEq, Repr

/-- Adapter-level transaction state of one IUnitOfWork instance: whether a
transaction is active, and the ordered trace of transaction events. -/
structure UowState where
  active : Bool
  trace : List UowEvent
deriving DecidableEq, Repr

/-- Modelled from the spec: IUnitOfWork.start has no implementation in this
repository — unit-of-work.interface.ts only declares it; section 4.3
prescribes that it begins a transaction and fails if one is already active. -/
def IUnitOfWork.start (s : UowState) : Except RepoError Unit × UowState :=
  if s.active then (.error .transactionStateError, s)
  else (.ok (), ⟨true, s.trace ++ [.started]⟩)

/-- Modelled from the spec: IUnitOfWork.commit has no implementation in this
repository; section 4.3 prescribes that it applies the transaction and fails
if no transaction is active. -/
def IUnitOfWork.commit (s : UowState) : Except RepoError Unit × UowState :=
  if s.active then (.ok (), ⟨false, s.trace ++ [.committed]⟩)
  else (.error .transactionStateError, s)

/-- Modelled from the spec: IUnitOfWork.rollback has no implementation in this
repository; section 4.3 prescribes that it discards the transaction and fails
if no transaction is active. -/
def IUnitOfWork.rollback (s : UowState) : Except RepoError Unit × UowState :=
  if s.active then (.ok (), ⟨false, s.trace ++ [.rolledBack]⟩)
  else (.error .transactionStateError, s)

variable {α : Type}

/-- Modelled from the spec: IUnitOfWork.execute has no implementation in this
repository; section 4.3 prescribes that it runs start, invokes the supplied
work, commits on normal return, and on failure rolls back and then rethrows
the original failure.  The work function observes the state left by start and
yields the outcome of the operations it issues. -/
def IUnitOfWork.execute (work : UowState → Except RepoError α) (s : UowState) :
    Except RepoError α × UowState :=
  match IUnitOfWork.start s with
  | (.error e, s1) => (.error e, s1)
  | (.ok _, s1) =>
    match work s1 with
    | .ok a =>
      match IUnitOfWork.commit s1 with
      | (.ok _, s2) => (.ok a, s2)
      | (.error e, s2) => (.error e, s2)
    | .error e => (.error e, (IUnitOfWork.rollback s1).2)

/-- The outcome the specification prescribes for execute, as a function of the
work outcome and the starting state: on normal return the result with a commit
recorded after the start, no rollback; on failure the original error with a
rollback recorded after the start — present in the state before the error
reaches the caller — and no commit. -/
def executePrescribed (w : Except RepoError α) (s : UowState) :
    Except RepoError α × UowState :=
  match w with
  | .ok a => (.ok a, ⟨false, s.trace ++ [.started, .committed]⟩)
  | .error e => (.error e, ⟨false, s.trace ++ [.started, .rolledBack]⟩)

/-- C2: for every work function run by execute from a state with no active
transaction, exactly one of commit and rollback is recorded: on normal return
of work the result is returned with a commit recorded and no rollback; on
failure the original error is returned with the rollback already recorded in
the returned state — so the rollback happens before the failure propagates —
and no commit.  The second conjunct counts the commit and rollback events. -/
theorem claim2_commit_or_rollback (work : UowState → Except RepoError α)
    (s : UowState) (h : s.active = false) :
    IUnitOfWork.execute work s =
      executePrescribed (work ⟨true, s.trace ++ [.started]⟩) s ∧
    (IUnitOfWork.execute work s).2.trace.count .committed +
        (IUnitOfWork.execute work s).2.trace.count .rolledBack =
      (s.trace.count .committed + s.trace.count .rolledBack) + 1 := by
  have hs : IUnitOfWork.start s = (.ok (), ⟨true, s.trace ++ [.started]⟩) := by
    simp [IUnitOfWork.start, h]
  have heq : IUnitOfWork.execute work s =
      executePrescribed (work ⟨true, s.trace ++ [.started]⟩) s := by
    cases hw : work ⟨true, s.trace ++ [.started]⟩ with
    | ok a =>
      simp [IUnitOfWork.execute, hs, hw, IUnitOfWork.commit, executePrescribed]
    | error e =>
      simp [IUnitOfWork.execute, hs, hw, IUnitOfWork.rollback, executePrescribed]
  refine ⟨heq, ?_⟩
  rw [heq]
  cases work ⟨true, s.trace ++ [.started]⟩ with
  | ok a =>
    simp [executePrescribed, List.count_append]
    omega
  | error e =>
    simp [executePrescribed, List.count_append]
    omega

/-- A work function that always fails with an adapter error. -/
def failingWork : UowState → Except RepoError Nat :=
  fun _ => .error (.adapterError "boom")

/-- The idle unit-of-work state: no active transaction, empty trace. -/
def uow0 : UowState := ⟨false, []⟩

/-- C2, witness: execute of an always-failing work from the idle state rolls
back exactly once and returns the original error. -/
theorem claim2_commit_or_rollback_witness :
    IUnitOfWork.execute failingWork uow0 =
      executePrescribed (failingWork ⟨true, uow0.trace ++ [.started]⟩) uow0 ∧
    (IUnitOfWork.execute failingWork uow0).2.trace.count .committed +
        (IUnitOfWork.execute failingWork uow0).2.trace.count .rolledBack =
      (uow0.trace.count .committed + uow0.trace.count .rolledBack) + 1 :=
  claim2_commit_or_rollback failingWork uow0 rfl

/-- An entity of the in-memory model store: an identifier and a field map. -/
structure Entity where
  id : EntityId
  fields : List (String × Value)
deriving DecidableEq, Repr

/-- The effective raiseException flag of an optional options bag: false when
the bag or the field is absent. -/
def raiseFlag (options : Option (OperationOptions Tx)) : Bool :=
  (options.bind fun o => o.raiseException).getD false

/-- An adapter-defined matching algorithm for findByPagination: decides, from
the free-text search term and the structured filters, whether an entity
matches. -/
abbrev MatchAlgorithm :=
  Option String → Option (List (String × FilterCondition)) → Entity → Bool

/-- An adapter-defined sorting algorithm for findByPagination: orders the
matched entities from the sortBy field name and the sort direction. -/
abbrev SortAlgorithm :=
  Option String → Option SortOrder → List Entity → List Entity

/-- Modelled from the spec: findById has no implementation in this repository
— IBaseRepository only declares it; section 4.1 prescribes that it returns
the single matching entity or null, and with the raiseException option true it
instead fails with a NotFoundError-kind outcome when no match exists. -/
def modelFindById (store : List Entity) (id : EntityId)
    (options : Option (OperationOptions Tx)) : Except RepoError (Option Entity) :=
  match store.find? fun e => decide (e.id = id) with
  | some e => .ok (some e)
  | none => if raiseFlag options then .error .notFoundError else .ok none

/-- Override the field map of an entity with the entries of a partial update. -/
def overrideFields (fields updates : List (String × Value)) :
    List (String × Value) :=
  updates ++ fields.filter fun kv => decide (updates.lookup kv.1 = none)

/-- Modelled from the spec: updateById has no implementation in this
repository; section 4.1 prescribes that it applies partial changes and returns
the resulting entity, and fails with a NotFoundError-kind outcome when the id
does not exist — unconditionally, not gated by raiseException. -/
def modelUpdateById (store : List Entity) (id : EntityId)
    (updateDto : List (String × Value))
    (options : Option (OperationOptions Tx)) : Except RepoError Entity :=
  match store.find? fun e => decide (e.id = id) with
  | some e => .ok ⟨e.id, overrideFields e.fields updateDto⟩
  | none => .error .notFoundError

/-- The confirmation message reporting how many entities were deleted. -/
def deletedMessage (n : Nat) : DeleteMessage :=
  ⟨"Deleted " ++ toString n ++ " documents"⟩

/-- Modelled from the spec: deleteMany has no implementation in this
repository; section 4.1 prescribes removal of every entity whose identifier is
in ids, best-effort, with the message indicating the count deleted. -/
def modelDeleteMany (store : List Entity) (ids : List EntityId)
    (options : Option (OperationOptions Tx)) : Except RepoError DeleteMessage :=
  .ok (deletedMessage (ids.filter fun i => store.any fun e => decide (e.id = i)).length)

/-- Modelled from the spec: findByPagination has no implementation in this
repository; section 4.1 prescribes the conceptual order filter first, then
sort, then page, with the matching and sorting algorithms adapter-defined,
page defaulting to 1 and limit to 10, and the result shape of section 3. -/
def modelFindByPagination (matchFn : MatchAlgorithm) (sortFn : SortAlgorithm)
    (store : List Entity) (searchRequest : SearchRequest) :
    PaginationResult Entity :=
  let page := searchRequest.page.getD 1
  let limit := searchRequest.limit.getD 10
  let matched := sortFn searchRequest.sortBy searchRequest.sortOrder
    (store.filter (matchFn searchRequest.search searchRequest.filters))
  let total := matched.length
  ⟨(matched.drop ((page - 1) * limit)).take limit, page, limit,
    (total + limit - 1) / limit, total⟩

/-- Whether an entity satisfies an equality filter map over its fields. -/
def matchesFilters (filters : Filters) (e : Entity) : Bool :=
  filters.all fun kv => decide (e.fields.lookup kv.1 = some kv.2)

/-- Modelled from the spec: a compliant in-memory adapter for the options-bag
repository contract over a store of entities; matchFn and sortFn are the
adapter-defined matching and sorting algorithms of findByPagination. -/
def modelRepo (matchFn : MatchAlgorithm) (sortFn : SortAlgorithm)
    (store : List Entity) :
    IBaseRepository Entity Entity (List (String × Value)) Unit where
  create := fun e _ => .ok e
  findAll := fun _ => .ok store
  findMany := fun f _ => .ok (store.filter (matchesFilters f))
  findByPagination := fun req => .ok (modelFindByPagination matchFn sortFn store req)
  findById := fun id options => modelFindById store id options
  findOne := fun f options =>
    match store.find? (matchesFilters f) with
    | some e => .ok (some e)
    | none => if raiseFlag options then .error .notFoundError else .ok none
  updateById := fun id u options => modelUpdateById store id u options
  deleteById := fun id options =>
    if store.any fun e => decide (e.id = id) then .ok (deletedMessage 1)
    else .error .notFoundError
  deleteMany := fun ids options => modelDeleteMany store ids options

/-- Ceiling of a division of naturals, through the rational ceiling: for
positive l, the natural number (t + l - 1) / l is the ceiling of t / l. -/
theorem add_pred_div_eq_ceil (t l : Nat) (hl : 0 < l) :
    (t + l - 1) / l = Nat.ceil ((t : ℚ) / (l : ℚ)) := by
  rcases Nat.eq_zero_or_pos t with ht | ht
  · subst ht
    have h1 : (l - 1) / l = 0 := Nat.div_eq_of_lt (by omega)
    simp [h1]
  · have key := Nat.div_add_mod (t + l - 1) l
    set n := (t + l - 1) / l with hn
    have hmod : (t + l - 1) % l < l := Nat.mod_lt _ hl
    have hbounds : t ≤ l * n ∧ l * n - l < t := by
      generalize hk : l * n = k at key
      generalize hr : (t + l - 1) % l = r at key hmod
      omega
    have hn0 : n ≠ 0 := by
      intro h0
      rw [h0, Nat.mul_zero] at hbounds
      omega
    rw [eq_comm, Nat.ceil_eq_iff hn0]
    have hlq : (0 : ℚ) < (l : ℚ) := by exact_mod_cast hl
    constructor
    · rw [lt_div_iff hlq]
      have h2 : (n - 1) * l < t := by
        calc (n - 1) * l = n * l - l := by rw [Nat.sub_mul, Nat.one_mul]
        _ = l * n - l := by rw [Nat.mul_comm]
        _ < t := hbounds.2
      exact_mod_cast h2
    · rw [div_le_iff hlq]
      have h4 : t ≤ n * l := by
        rw [Nat.mul_comm]
        exact hbounds.1
      exact_mod_cast h4

/-- C3: for every search request whose effective limit is positive, the
pagination result obtained through the service over the modelled compliant
adapter carries at most limit data entries, and its totalPages equals the
ceiling of total divided by limit. -/
theorem claim3_pagination_contract (matchFn : MatchAlgorithm)
    (sortFn : SortAlgorithm) (store : List Entity) (req : SearchRequest)
    (o : Option (OperationOptions Unit)) (h : 0 < req.limit.getD 10) :
    (BaseService.mk (modelRepo matchFn sortFn store)).findByPagination req o =
      .ok (modelFindByPagination matchFn sortFn store req) ∧
    (modelFindByPagination matchFn sortFn store req).data.length ≤
      (modelFindByPagination matchFn sortFn store req).limit ∧
    (modelFindByPagination matchFn sortFn store req).totalPages =
      Nat.ceil (((modelFindByPagination matchFn sortFn store req).total : ℚ) /
        ((modelFindByPagination matchFn sortFn store req).limit : ℚ)) := by
  refine ⟨rfl, ?_, ?_⟩
  · exact List.length_take_le _ _
  · exact add_pred_div_eq_ceil _ _ h

/-- The match-everything algorithm, a simple adapter choice for witnesses. -/
def demoMatch : MatchAlgorithm := fun _ _ _ => true

/-- The keep-order sorting algorithm, a simple adapter choice for witnesses. -/
def demoSort : SortAlgorithm := fun _ _ l => l

/-- A concrete three-entity store for witnesses. -/
def demoStore : List Entity :=
  [⟨.num 1, [("name", .vStr "a")]⟩, ⟨.num 2, [("name", .vStr "b")]⟩,
   ⟨.num 3, [("name", .vStr "c")]⟩]

/-- A concrete search request: page 1, limit 2. -/
def demoRequest : SearchRequest := ⟨some 1, some 2, none, none, none, none⟩

/-- C3, witness: the pagination contract at the concrete store and request. -/
theorem claim3_pagination_contract_witness :
    (BaseService.mk (modelRepo demoMatch demoSort demoStore)).findByPagination
        demoRequest none =
      .ok (modelFindByPagination demoMatch demoSort demoStore demoRequest) ∧
    (modelFindByPagination demoMatch demoSort demoStore demoRequest).data.length ≤
      (modelFindByPagination demoMatch demoSort demoStore demoRequest).limit ∧
    (modelFindByPagination demoMatch demoSort demoStore demoRequest).totalPages =
      Nat.ceil (((modelFindByPagination demoMatch demoSort demoStore demoRequest).total : ℚ) /
        ((modelFindByPagination demoMatch demoSort demoStore demoRequest).limit : ℚ)) :=
  claim3_pagination_contract demoMatch demoSort demoStore demoRequest none
    (by decide)

/-- C4: through the service over the modelled adapter, looking up an id absent
from the store yields null when the raiseException option is unset or false,
and a NotFoundError outcome when it is true. -/
theorem claim4_findById_absent (matchFn : MatchAlgorithm) (sortFn : SortAlgorithm)
    (store : List Entity) (id : EntityId) (o : Option (OperationOptions Unit))
    (h : (store.find? fun e => decide (e.id = id)) = none) :
    (BaseService.mk (modelRepo matchFn sortFn store)).findOne id o =
      if raiseFlag o then .error .notFoundError else .ok none := by
  show modelFindById store id o = _
  simp [modelFindById, h]

/-- C4, witness: id 9 is absent from the concrete store; with no options the
lookup returns null. -/
theorem claim4_findById_absent_witness :
    (BaseService.mk (modelRepo demoMatch demoSort demoStore)).findOne (.num 9) none =
      if raiseFlag (none : Option (OperationOptions Unit)) then .error .notFoundError
      else .ok none :=
  claim4_findById_absent demoMatch demoSort demoStore (.num 9) none (by decide)

/-- C5: through the service over the modelled adapter, updating an id absent
from the store fails with NotFoundError for every update DTO and every options
bag, whatever the raiseException option is. -/
theorem claim5_updateById_absent (matchFn : MatchAlgorithm)
    (sortFn : SortAlgorithm) (store : List Entity) (id : EntityId)
    (u : List (String × Value)) (o : Option (OperationOptions Unit))
    (h : (store.find? fun e => decide (e.id = id)) = none) :
    (BaseService.mk (modelRepo matchFn sortFn store)).update id u o =
      .error .notFoundError := by
  show modelUpdateById store id u o = _
  simp [modelUpdateById, h]

/-- C5, witness: updating absent id 9 fails with NotFoundError even with the
raiseException option explicitly false. -/
theorem claim5_updateById_absent_witness :
    (BaseService.mk (modelRepo demoMatch demoSort demoStore)).update (.num 9)
        [("name", .vStr "z")] (some (optionsBagOf none (some false))) =
      .error .notFoundError :=
  claim5_updateById_absent demoMatch demoSort demoStore (.num 9)
    [("name", .vStr "z")] (some (optionsBagOf none (some false))) (by decide)

/-- C7: through the service over the modelled adapter, deleteMany of the empty
id sequence always succeeds with the message indicating zero deletions, for
every store and every options bag; it never produces an error outcome. -/
theorem claim7_deleteMany_empty (matchFn : MatchAlgorithm)
    (sortFn : SortAlgorithm) (store : List Entity)
    (o : Option (OperationOptions Unit)) :
    (BaseService.mk (modelRepo matchFn sortFn store)).deleteMany [] o =
      .ok (deletedMessage 0) :=
  rfl

/-- Replace the page field of a search request. -/
def SearchRequest.withPage (s : SearchRequest) (p : Option Nat) : SearchRequest :=
  ⟨p, s.limit, s.sortBy, s.sortOrder, s.search, s.filters⟩

/-- Replace the limit field of a search request. -/
def SearchRequest.withLimit (s : SearchRequest) (l : Option Nat) : SearchRequest :=
  ⟨s.page, l, s.sortBy, s.sortOrder, s.search, s.filters⟩

/-- C9: through the service over the modelled adapter, every search request
behaves exactly like the request whose page is made explicit with default 1
and whose limit is made explicit with default 10 — so a request omitting page
behaves as if page were 1, and one omitting limit as if limit were 10. -/
theorem claim9_page_limit_defaults (matchFn : MatchAlgorithm)
    (sortFn : SortAlgorithm) (store : List Entity) (req : SearchRequest)
    (o : Option (OperationOptions Unit)) :
    (BaseService.mk (modelRepo matchFn sortFn store)).findByPagination req o =
      (BaseService.mk (modelRepo matchFn sortFn store)).findByPagination
        ((req.withPage (some (req.page.getD 1))).withLimit
          (some (req.limit.getD 10))) o := by
  show Except.ok (modelFindByPagination matchFn sortFn store req) = _
  simp [BaseService.findByPagination, modelRepo, modelFindByPagination,
    SearchRequest.withPage, SearchRequest.withLimit]

/-- Service create paired with the state of its DTO argument after the call.
Translated from the source body, which reads createDto once to pass it on and
contains no assignment to it; a mutation of the input would surface here as a
second component differing from the argument. -/
def BaseService.createTracked (s : BaseService T C U Tx) (createDto : C)
    (options : Option (OperationOptions Tx)) : Except RepoError T × C :=
  (s.repository.create createDto options, createDto)

/-- Service findMany paired with the state of its filter-map argument after
the call; the source body contains no assignment to filters. -/
def BaseService.findManyTracked (s : BaseService T C U Tx) (filters : Filters)
    (options : Option (OperationOptions Tx)) :
    Except RepoError (List T) × Filters :=
  (s.repository.findMany filters options, filters)

/-- Service findOneBy paired with the state of its filter-map argument after
the call; the source body contains no assignment to filters. -/
def BaseService.findOneByTracked (s : BaseService T C U Tx) (filters : Filters)
    (options : Option (OperationOptions Tx)) :
    Except RepoError (Option T) × Filters :=
  (s.repository.findOne filters options, filters)

/-- Service update paired with the state of its DTO argument after the call;
the source body contains no assignment to updateDto. -/
def BaseService.updateTracked (s : BaseService T C U Tx) (id : EntityId)
    (updateDto : U) (options : Option (OperationOptions Tx)) :
    Except RepoError T × U :=
  (s.repository.updateById id updateDto options, updateDto)

/-- Service findByPagination paired with the state of its search-request
argument after the call; the source body contains no assignment to it. -/
def BaseService.findByPaginationTracked (s : BaseService T C U Tx)
    (searchRequest : SearchRequest) (options : Option (OperationOptions Tx)) :
    Except RepoError (PaginationResult T) × SearchRequest :=
  (s.repository.findByPagination searchRequest, searchRequest)

/-- C8: no service operation mutates its DTO, filter-map, or search-request
input: each tracked call returns the same result as the plain call, and the
argument after the call is the argument that was passed.  The embedding of the
service is pure state passing because the source bodies contain no assignment
to any parameter, and the modelled adapter operations are pure functions of
their arguments, so the inputs cannot change across a call. -/
theorem claim8_no_input_mutation (s : BaseService T C U Tx) (dto : C)
    (filters : Filters) (id : EntityId) (u : U) (req : SearchRequest)
    (o : Option (OperationOptions Tx)) :
    s.createTracked dto o = (s.create dto o, dto) ∧
    s.findManyTracked filters o = (s.findMany filters o, filters) ∧
    s.findOneByTracked filters o = (s.findOneBy filters o, filters) ∧
    s.updateTracked id u o = (s.update id u o, u) ∧
    s.findByPaginationTracked req o = (s.findByPagination req o, req) :=
  ⟨rfl, rfl, rfl, rfl, rfl⟩

end NestjsCore
